import Mathlib

/-!
Shallow embedding of `sqlalchemy_utils/view.py` (views and materialized views
for SQLAlchemy): the View entity, the CreateView / DropView / Refresh DDL
statements and their dialect-aware compilers, the factory functions and their
lifecycle hooks, and the transient visit-name mutation used for DDL dispatch.
-/

namespace SQLAlchemyUtilsView

/-- One fragment of a selectable's rendered SQL: literal text, or a bound
parameter carrying both its placeholder name and the literal value it binds. -/
inductive SQLFragment where
  | lit (s : String)
  | param (pname : String) (value : String)
deriving Repr, DecidableEq

/-- A source column of a selectable: name, type and primary-key flag, as
exposed by the column collection of a query-like object. -/
structure SrcColumn where
  name : String
  type : String
  primary_key : Bool
deriving Repr, DecidableEq

/-- A query-like object: an ordered column collection plus the SQL text it
renders to, given as fragments so that bound parameters are explicit. -/
structure Selectable where
  columns : List SrcColumn
  fragments : List SQLFragment
deriving Repr, DecidableEq

/-- Embedding of `compiler.sql_compiler.process(selectable, literal_binds=...)`:
renders the selectable's fragments; a bound parameter becomes its literal
value under `literal_binds = true` and a `:name` placeholder otherwise. -/
def renderSelectable (literal_binds : Bool) (s : Selectable) : String :=
  String.join (s.fragments.map fun f =>
    match f with
    | .lit t => t
    | .param pname value => if literal_binds then value else ":" ++ pname)

/-- Modelled from the spec: the Selectable Introspector (`get_columns`, defined
in `sqlalchemy_utils/functions`, outside the sources in scope) returns the
query's output columns, in the query's native column order. -/
def get_columns (s : Selectable) : List SrcColumn :=
  s.columns

/-- The active dialect: its name and its identifier-quoting rule
(`compiler.dialect.identifier_preparer.quote`). -/
structure Dialect where
  name : String
  quote : String → String

/-- A storage-parameter mapping, e.g. the value of a `with` option. -/
abbrev StorageParams := List (String × String)

/-- The per-entity dialect option bag, keyed by dialect namespace then option
key: `element.dialect_options.get(ns, default).get(key, default)`. -/
abbrev OptionBag := List (String × List (String × StorageParams))

/-- Lookup in the option bag with empty-mapping defaults, mirroring
`element.dialect_options.get(ns, dict()).get(key, dict())`. -/
def OptionBag.get2 (bag : OptionBag) (ns key : String) : StorageParams :=
  (((bag.lookup ns).getD []).lookup key).getD []

/-- A derived view column: name, type, exposed key (alias or name) and
primary-key flag, mirroring `sa.Column(c.name, c.type, key=..., primary_key=...)`. -/
structure Column where
  name : String
  type : String
  key : String
  primary_key : Bool
deriving Repr, DecidableEq

/-- An index descriptor attached to a view. -/
structure Index where
  name : String
deriving Repr, DecidableEq

/-- A primary-key constraint over a list of column names, mirroring
`PrimaryKeyConstraint(*names)`. -/
structure PrimaryKeyConstraint where
  columns : List String
deriving Repr, DecidableEq

/-- A lifecycle hook registered on a metadata container by the factory
functions: create the view, create its indexes, or drop the view. -/
inductive Hook where
  | createViewHook (viewName : String)
  | createIndexesHook (indexNames : List String)
  | dropViewHook (viewName : String)
deriving Repr, DecidableEq

/-- A DDL statement executed during a create-all or drop-all pass. -/
inductive DDLEvent where
  | createTable (tname : String)
  | createView (vname : String)
  | createIndex (iname : String)
  | dropTable (tname : String)
  | dropView (vname : String)
deriving Repr, DecidableEq

/-- What a single lifecycle hook executes when fired. -/
def runHook : Hook → List DDLEvent
  | .createViewHook n => [.createView n]
  | .createIndexesHook idxs => idxs.map .createIndex
  | .dropViewHook n => [.dropView n]

/-- A metadata container: its registered table keys (in dependency order) and
the lifecycle hooks registered on its `after_create` / `before_drop` events,
in registration order. -/
structure MetaData where
  tables : List String
  after_create : List Hook
  before_drop : List Hook
deriving Repr, DecidableEq

/-- Modelled from the spec: the schema container's create-all pass runs all
dependency-ordered base-table DDL, then fires the `after_create` hooks in
registration order. -/
def MetaData.create_all (m : MetaData) : List DDLEvent :=
  m.tables.map DDLEvent.createTable ++ (m.after_create.map runHook).flatten

/-- Modelled from the spec: the schema container's drop-all pass fires the
`before_drop` hooks in registration order, then drops the base tables in
reverse dependency order. -/
def MetaData.drop_all (m : MetaData) : List DDLEvent :=
  (m.before_drop.map runHook).flatten ++ m.tables.reverse.map DDLEvent.dropTable

/-- The View entity. `cascade` models the optional Python attribute of that
name: it is never assigned by `View.__init__` nor by the factory functions
(`none` = attribute absent, so reading it raises `AttributeError`), and may be
set externally (`some b`). `metadata` is the container the view was registered
into at construction. -/
structure View where
  name : String
  metadata : MetaData
  columns : List Column
  indexes : List Index
  selectable : Selectable
  materialized : Bool
  replace : Bool
  constraints : List PrimaryKeyConstraint
  cascade : Option Bool
  dialect_options : OptionBag
deriving Repr, DecidableEq

/-- Embedding of `View.__init__`: registers the table key into the container
(via `Table.__init__`), then raises `ValueError` when `materialized` and
`replace` are both requested; columns and indexes arrive as positional args,
the dialect option bag via dialect keyword arguments. -/
def View.init (name : String) (metadata : MetaData) (selectable : Selectable)
    (materialized : Bool) (replace : Bool) (cols : List Column)
    (idxs : List Index) (dialect_options : OptionBag) : Except String View :=
  let metadata' : MetaData := { metadata with tables := metadata.tables ++ [name] }
  if materialized && replace then
    .error "Cannot use CREATE OR REPLACE with materialized views"
  else
    .ok { name := name, metadata := metadata', columns := cols, indexes := idxs,
          selectable := selectable, materialized := materialized,
          replace := replace, constraints := [], cascade := none,
          dialect_options := dialect_options }

/-- Boolean success test for an `Except` result. -/
def exceptIsOk {ε α : Type} : Except ε α → Bool
  | .ok _ => true
  | .error _ => false

/-- The CreateView DDL statement: the view plus the `if_not_exists` guard. -/
structure CreateView where
  element : View
  if_not_exists : Bool
deriving Repr, DecidableEq

/-- The DropView DDL statement: the view plus the `if_exists` guard. -/
structure DropView where
  element : View
  if_exists : Bool
deriving Repr, DecidableEq

/-- Embedding of `compile_create_materialized_view`: renders
`CREATE [OR REPLACE ][MATERIALIZED ]VIEW <quoted>[ WITH (...)] AS <query>`,
the WITH clause taken from the view's `postgresql` / `with` option bag entry
and the defining query rendered with `literal_binds=True`. -/
def compile_create_materialized_view (dialect : Dialect) (create : CreateView) : String :=
  let element := create.element
  let withclause : StorageParams := element.dialect_options.get2 "postgresql" "with"
  let withclause_text : String :=
    if withclause ≠ [] then
      " WITH (" ++
        String.intercalate ", " (withclause.map fun p => p.1 ++ " = " ++ p.2)
        ++ ")"
    else ""
  "CREATE " ++ (if element.replace then "OR REPLACE " else "")
    ++ (if element.materialized then "MATERIALIZED " else "")
    ++ "VIEW " ++ dialect.quote element.name ++ withclause_text
    ++ " AS " ++ renderSelectable true element.selectable

/-- Embedding of `compile_drop_materialized_view`: renders
`DROP [MATERIALIZED ]VIEW IF EXISTS <quoted> <CASCADE-or-empty>` (note the
format string always places a space after the name). Reading
`element.cascade` raises `AttributeError` when the attribute was never set. -/
def compile_drop_materialized_view (dialect : Dialect) (drop : DropView) :
    Except String String :=
  let element := drop.element
  match element.cascade with
  | none => .error "AttributeError: View object has no attribute cascade"
  | some c =>
      .ok ("DROP " ++ (if element.materialized then "MATERIALIZED " else "")
        ++ "VIEW IF EXISTS " ++ dialect.quote element.name ++ " "
        ++ (if c then "CASCADE" else ""))

/-- Embedding of `create_view_from_selectable`: derives one column per source
column (key = alias when present, primary-key flag preserved), constructs the
View in a fresh container when `metadata` is `None`, and synthesizes a
composite primary-key constraint over all source column names when no source
column is primary-key. -/
def create_view_from_selectable (name : String) (selectable : Selectable)
    (indexes : List Index) (metadata : Option MetaData)
    (aliases : List (String × String)) (materialized : Bool) (replace : Bool)
    (dialect_options : OptionBag) : Except String View :=
  let metadata := metadata.getD { tables := [], after_create := [], before_drop := [] }
  let args : List Column := (get_columns selectable).map fun c =>
    { name := c.name, type := c.type,
      key := (aliases.lookup c.name).getD c.name,
      primary_key := c.primary_key }
  match View.init name metadata selectable materialized replace args indexes
      dialect_options with
  | .error e => .error e
  | .ok view =>
      if ¬ (get_columns selectable).any (·.primary_key) then
        .ok { view with constraints := view.constraints ++
          [{ columns := (get_columns selectable).map (·.name) }] }
      else
        .ok view

/-- Embedding of `create_materialized_view`: builds the view with
`metadata=None`, `materialized=True`, `replace=False`, then registers two
`after_create` hooks (create the view, create its indexes) and one
`before_drop` hook (drop the view) on the caller's metadata. -/
def create_materialized_view (name : String) (selectable : Selectable)
    (metadata : MetaData) (indexes : List Index)
    (aliases : List (String × String)) (dialect_options : OptionBag) :
    Except String (View × MetaData) :=
  match create_view_from_selectable name selectable indexes none aliases
      true false dialect_options with
  | .error e => .error e
  | .ok view =>
      .ok (view,
        { metadata with
            after_create := metadata.after_create ++
              [Hook.createViewHook view.name,
               Hook.createIndexesHook (view.indexes.map (·.name))],
            before_drop := metadata.before_drop ++
              [Hook.dropViewHook view.name] })

/-- Embedding of `create_view`: builds a non-materialized view with
`metadata=None`, then registers the same three lifecycle hooks. The
`cascade_on_drop` argument is accepted but never stored or forwarded. -/
def create_view (name : String) (selectable : Selectable) (metadata : MetaData)
    (cascade_on_drop : Bool) (replace : Bool) (indexes : List Index)
    (aliases : List (String × String)) (dialect_options : OptionBag) :
    Except String (View × MetaData) :=
  match create_view_from_selectable name selectable indexes none aliases
      false replace dialect_options with
  | .error e => .error e
  | .ok view =>
      .ok (view,
        { metadata with
            after_create := metadata.after_create ++
              [Hook.createViewHook view.name,
               Hook.createIndexesHook (view.indexes.map (·.name))],
            before_drop := metadata.before_drop ++
              [Hook.dropViewHook view.name] })

/-- The class-level dispatch tag `View.__visit_name__` modelled as mutable
state: a single string field shared by all View instances. -/
structure VisitState where
  visit_name : String
deriving Repr, DecidableEq

/-- The class-level default of `View.__visit_name__` (line
`__visit_name__ = "table"`): behave as a table when not creating/dropping. -/
def View.default_visit_name : String := "table"

/-- Embedding of the `View.create_view` method: sets the class-level tag to
`view`, runs the DDL visitor (which observes the tag and may raise), and in a
`finally` block restores the tag to `table`; the visitor's outcome (normal or
exceptional) is propagated unchanged. -/
def View.create_view_method (_v : View) (run_ddl_visitor : String → Except String Unit)
    (s : VisitState) : VisitState × Except String Unit :=
  let s₁ : VisitState := { s with visit_name := "view" }
  let result := run_ddl_visitor s₁.visit_name
  let s₂ : VisitState := { s₁ with visit_name := "table" }
  (s₂, result)

/-- Embedding of the `View.drop_view` method: identical tag discipline around
the drop visitor run. -/
def View.drop_view_method (_v : View) (run_ddl_visitor : String → Except String Unit)
    (s : VisitState) : VisitState × Except String Unit :=
  let s₁ : VisitState := { s with visit_name := "view" }
  let result := run_ddl_visitor s₁.visit_name
  let s₂ : VisitState := { s₁ with visit_name := "table" }
  (s₂, result)

/-- The RefreshMaterializedView statement: a view name and a concurrently
flag, independent of any View entity. -/
structure RefreshMaterializedView where
  name : String
  concurrently : Bool
deriving Repr, DecidableEq

/-- Embedding of `compile_refresh_materialized_view`: renders
`REFRESH MATERIALIZED VIEW [CONCURRENTLY ]<quoted-name>`. -/
def compile_refresh_materialized_view (dialect : Dialect)
    (element : RefreshMaterializedView) : String :=
  "REFRESH MATERIALIZED VIEW "
    ++ (if element.concurrently then "CONCURRENTLY " else "")
    ++ dialect.quote element.name

/-- An observable operation performed on the session by
`refresh_materialized_view`. -/
inductive SessionOp where
  | flush
  | execute (stmt : RefreshMaterializedView)
deriving Repr, DecidableEq

/-- Embedding of `refresh_materialized_view`: appends to the session's
operation trace one flush followed by one execute of the refresh statement;
the Python function returns `None`. -/
def refresh_materialized_view (session : List SessionOp) (name : String)
    (concurrently : Bool) : List SessionOp :=
  session ++ [SessionOp.flush,
    SessionOp.execute { name := name, concurrently := concurrently }]

/-- The CREATE VIEW text asserted by the spec, written from the spec's words:
`CREATE ` + (`OR REPLACE ` if replace) + (`MATERIALIZED ` if materialized) +
`VIEW ` + quoted name + an optional WITH clause + ` AS ` + the query with
literals inlined, where the WITH clause is present only when the view's
`postgresql` `with` mapping is non-empty AND the active dialect is postgresql
(the spec's "absent on other dialects"). -/
def specCreateViewText (dialect : Dialect) (v : View) : String :=
  let pgWith : StorageParams := v.dialect_options.get2 "postgresql" "with"
  let withText : String :=
    if dialect.name = "postgresql" ∧ pgWith ≠ [] then
      " WITH (" ++
        String.intercalate ", " (pgWith.map fun p => p.1 ++ " = " ++ p.2)
        ++ ")"
    else ""
  "CREATE " ++ (if v.replace then "OR REPLACE " else "")
    ++ (if v.materialized then "MATERIALIZED " else "")
    ++ "VIEW " ++ dialect.quote v.name ++ withText
    ++ " AS " ++ renderSelectable true v.selectable

/-- The CREATE VIEW text the code actually produces, written from the spec's
words amended to drop the active-dialect condition: the WITH clause is present
exactly when the view's `postgresql` `with` mapping is non-empty, whatever the
active dialect. -/
def specCreateViewTextAmended (dialect : Dialect) (v : View) : String :=
  let pgWith : StorageParams := v.dialect_options.get2 "postgresql" "with"
  let withText : String :=
    if pgWith ≠ [] then
      " WITH (" ++
        String.intercalate ", " (pgWith.map fun p => p.1 ++ " = " ++ p.2)
        ++ ")"
    else ""
  "CREATE " ++ (if v.replace then "OR REPLACE " else "")
    ++ (if v.materialized then "MATERIALIZED " else "")
    ++ "VIEW " ++ dialect.quote v.name ++ withText
    ++ " AS " ++ renderSelectable true v.selectable

/-- The DROP VIEW text asserted by the claim, written from its words:
`DROP ` + (`MATERIALIZED ` if materialized) + `VIEW IF EXISTS ` + quoted name,
with ` CASCADE` appended exactly when the cascade attribute is set (truthy). -/
def specDropViewText (dialect : Dialect) (v : View) : String :=
  "DROP " ++ (if v.materialized then "MATERIALIZED " else "")
    ++ "VIEW IF EXISTS " ++ dialect.quote v.name
    ++ (if v.cascade = some true then " CASCADE" else "")

/-- A sample PostgreSQL-style dialect: quotes identifiers in double quotes. -/
def pgDialect : Dialect :=
  { name := "postgresql", quote := fun s => "\"" ++ s ++ "\"" }

/-- A sample non-PostgreSQL dialect: quotes identifiers in backquotes. -/
def mysqlDialect : Dialect :=
  { name := "mysql", quote := fun s => "`" ++ s ++ "`" }

/-- A sample selectable, `SELECT t.id FROM t` with one non-primary-key
column. -/
def sampleSelectable : Selectable :=
  { columns := [{ name := "id", type := "INTEGER", primary_key := false }],
    fragments := [SQLFragment.lit "SELECT t.id FROM t"] }

/-- A sample view named `v1` over `sampleSelectable`, carrying a non-empty
`postgresql` `with` storage-parameter mapping and an externally set falsy
cascade attribute. -/
def sampleView : View :=
  { name := "v1",
    metadata := { tables := ["v1"], after_create := [], before_drop := [] },
    columns := [{ name := "id", type := "INTEGER", key := "id",
                  primary_key := false }],
    indexes := [],
    selectable := sampleSelectable,
    materialized := false,
    replace := false,
    constraints := [{ columns := ["id"] }],
    cascade := some false,
    dialect_options := [("postgresql", [("with", [("fillfactor", "70")])])] }

/-- The explicit View value that a successful `create_view_from_selectable`
call produces (used to characterize the factory's output). -/
def derivedView (name : String) (sel : Selectable) (idxs : List Index)
    (meta : Option MetaData) (aliases : List (String × String))
    (mat : Bool) (rep : Bool) (opts : OptionBag) : View :=
  let metadata := meta.getD { tables := [], after_create := [], before_drop := [] }
  { name := name,
    metadata := { metadata with tables := metadata.tables ++ [name] },
    columns := (get_columns sel).map fun c =>
      { name := c.name, type := c.type,
        key := (aliases.lookup c.name).getD c.name,
        primary_key := c.primary_key },
    indexes := idxs,
    selectable := sel,
    materialized := mat,
    replace := rep,
    constraints := if (get_columns sel).any (·.primary_key) then []
                   else [{ columns := (get_columns sel).map (·.name) }],
    cascade := none,
    dialect_options := opts }

/-- A sample selectable with two columns, one primary-key, for the aliasing
example. -/
def aliasSelectable : Selectable :=
  { columns := [{ name := "id", type := "INTEGER", primary_key := true },
                { name := "full_name", type := "TEXT", primary_key := false }],
    fragments := [SQLFragment.lit "SELECT t.id, t.full_name FROM t"] }

/-- The view derived from `aliasSelectable` under the alias map
`full_name -> fn`. -/
def aliasedView : View :=
  derivedView "v2" aliasSelectable [] none [("full_name", "fn")] false false []

/-- A caller-supplied metadata container holding one base table `t`. -/
def m0 : MetaData := { tables := ["t"], after_create := [], before_drop := [] }

/-- The view produced by `create_view "v1" sampleSelectable m0 ...`. -/
def sampleCreatedView : View :=
  derivedView "v1" sampleSelectable [] none [] false false []

/-- The caller metadata after `create_view "v1" sampleSelectable m0 ...`. -/
def sampleCreatedMeta : MetaData :=
  { m0 with
      after_create := m0.after_create ++
        [Hook.createViewHook "v1", Hook.createIndexesHook []],
      before_drop := m0.before_drop ++ [Hook.dropViewHook "v1"] }

/-- The view produced by `create_materialized_view "mv1" sampleSelectable m0 ...`. -/
def sampleMatView : View :=
  derivedView "mv1" sampleSelectable [] none [] true false []

/-- The caller metadata after `create_materialized_view "mv1" sampleSelectable m0 ...`. -/
def sampleMatMeta : MetaData :=
  { m0 with
      after_create := m0.after_create ++
        [Hook.createViewHook "mv1", Hook.createIndexesHook []],
      before_drop := m0.before_drop ++ [Hook.dropViewHook "mv1"] }

/-- Helper: a successful `create_view_from_selectable` call returns exactly
`derivedView`; it succeeds whenever `materialized && replace` is false. -/
theorem create_view_from_selectable_eq (name : String) (sel : Selectable)
    (idxs : List Index) (meta : Option MetaData)
    (aliases : List (String × String)) (mat rep : Bool) (opts : OptionBag)
    (h : (mat && rep) = false) :
    create_view_from_selectable name sel idxs meta aliases mat rep opts
      = .ok (derivedView name sel idxs meta aliases mat rep opts) := by
  unfold create_view_from_selectable View.init derivedView
  rw [h]
  by_cases hpk : (get_columns sel).any (·.primary_key) = true
  · simp [hpk]
  · simp [hpk]

/-- Helper: inversion for `create_view_from_selectable`: success forces the
result to be `derivedView` and the flag pair to be compatible. -/
theorem create_view_from_selectable_inv {name : String} {sel : Selectable}
    {idxs : List Index} {meta : Option MetaData}
    {aliases : List (String × String)} {mat rep : Bool} {opts : OptionBag}
    {view : View}
    (h : create_view_from_selectable name sel idxs meta aliases mat rep opts
      = .ok view) :
    view = derivedView name sel idxs meta aliases mat rep opts
      ∧ (mat && rep) = false := by
  by_cases hmr : (mat && rep) = true
  · exfalso
    unfold create_view_from_selectable View.init at h
    rw [hmr] at h
    simp at h
  · have hf : (mat && rep) = false := by
      cases hv : (mat && rep) with
      | true => exact absurd hv hmr
      | false => rfl
    rw [create_view_from_selectable_eq name sel idxs meta aliases mat rep opts hf] at h
    exact ⟨(Except.ok.injEq _ _ |>.mp h).symm, hf⟩

/-- Helper: the success equation for the `create_view` factory (it always
succeeds, since it fixes `materialized = false`). -/
theorem create_view_eq (name : String) (sel : Selectable) (m : MetaData)
    (cascade_on_drop : Bool) (replace : Bool) (idxs : List Index)
    (aliases : List (String × String)) (opts : OptionBag) :
    create_view name sel m cascade_on_drop replace idxs aliases opts
      = .ok (derivedView name sel idxs none aliases false replace opts,
          { m with
              after_create := m.after_create ++
                [Hook.createViewHook name, Hook.createIndexesHook (idxs.map (·.name))],
              before_drop := m.before_drop ++ [Hook.dropViewHook name] }) := by
  unfold create_view
  rw [create_view_from_selectable_eq name sel idxs none aliases false replace opts rfl]
  rfl

/-- Helper: the success equation for the `create_materialized_view` factory
(it always succeeds, since it fixes `replace = false`). -/
theorem create_materialized_view_eq (name : String) (sel : Selectable)
    (m : MetaData) (idxs : List Index) (aliases : List (String × String))
    (opts : OptionBag) :
    create_materialized_view name sel m idxs aliases opts
      = .ok (derivedView name sel idxs none aliases true false opts,
          { m with
              after_create := m.after_create ++
                [Hook.createViewHook name, Hook.createIndexesHook (idxs.map (·.name))],
              before_drop := m.before_drop ++ [Hook.dropViewHook name] }) := by
  unfold create_materialized_view
  rw [create_view_from_selectable_eq name sel idxs none aliases true false opts rfl]
  rfl

/-- Helper: filtering the derived columns by their primary-key flag and taking
names agrees with doing the same on the source columns, since the derivation
preserves both the flag and the name. -/
theorem derived_filter_pk_names (aliases : List (String × String))
    (l : List SrcColumn) :
    (((l.map fun c =>
        ({ name := c.name, type := c.type,
           key := (aliases.lookup c.name).getD c.name,
           primary_key := c.primary_key } : Column)).filter
        (·.primary_key)).map (·.name))
      = (l.filter (·.primary_key)).map (·.name) := by
  induction l with
  | nil => rfl
  | cons c t ih =>
      by_cases hc : c.primary_key = true <;>
        simp [List.filter_cons, hc, ih]

/-- C1, counterexample: compiling CreateView for `sampleView` (which carries a
non-empty `postgresql` `with` storage-parameter mapping) on the non-postgresql
dialect `mysqlDialect` still emits the WITH clause, so the compiled text
differs from the claim's dialect-gated text (`specCreateViewText`), refuting
"absent on other dialects". -/
theorem c1_create_view_text_counterexample :
    compile_create_materialized_view mysqlDialect
        { element := sampleView, if_not_exists := false }
      = "CREATE VIEW `v1` WITH (fillfactor = 70) AS SELECT t.id FROM t"
    ∧ compile_create_materialized_view mysqlDialect
        { element := sampleView, if_not_exists := false }
      ≠ specCreateViewText mysqlDialect sampleView :=
  ⟨rfl, by decide⟩

/-- C1, amended: for every dialect and every CreateView statement, the
compiled text is `CREATE ` + (`OR REPLACE ` if replace) + (`MATERIALIZED ` if
materialized) + `VIEW ` + the dialect-quoted name + an optional
` WITH (k1 = v1, ...)` clause + ` AS ` + the defining query with bound
parameters replaced by literal values; the WITH clause is present if and only
if the view's option bag holds a non-empty `postgresql` `with` mapping,
regardless of the active dialect. -/
theorem c1_create_view_text_amended (dialect : Dialect) (create : CreateView) :
    compile_create_materialized_view dialect create
      = specCreateViewTextAmended dialect create.element := rfl

/-- C2, counterexample: for `sampleView`, whose cascade attribute is set falsy,
the compiled DROP text carries a trailing space after the quoted name, so it
is not exactly the claim's text (`specDropViewText`, which ends at the name
when CASCADE is absent). -/
theorem c2_drop_view_text_counterexample :
    compile_drop_materialized_view pgDialect
        { element := sampleView, if_exists := false }
      = Except.ok "DROP VIEW IF EXISTS \"v1\" "
    ∧ "DROP VIEW IF EXISTS \"v1\" " ≠ specDropViewText pgDialect sampleView :=
  ⟨rfl, by decide⟩

/-- C2, amended: for every view whose cascade attribute is present and every
value of the if_exists flag, compiling DropView yields `DROP ` +
(`MATERIALIZED ` if materialized) + `VIEW IF EXISTS ` + the dialect-quoted
name + a space + (`CASCADE` when cascade is truthy, the empty string — hence a
trailing space — otherwise); `IF EXISTS` appears unconditionally, regardless
of the if_exists flag. -/
theorem c2_drop_view_text_amended (dialect : Dialect) (v : View) (c : Bool)
    (e : Bool) (h : v.cascade = some c) :
    compile_drop_materialized_view dialect { element := v, if_exists := e }
      = Except.ok ("DROP " ++ (if v.materialized then "MATERIALIZED " else "")
          ++ "VIEW IF EXISTS " ++ dialect.quote v.name ++ " "
          ++ (if c then "CASCADE" else "")) := by
  unfold compile_drop_materialized_view
  simp only [h]

/-- C2, witness: the amended theorem applied to `sampleView` on the
postgresql-style dialect with if_exists false. -/
theorem c2_drop_view_text_amended_witness :
    compile_drop_materialized_view pgDialect
        { element := sampleView, if_exists := false }
      = Except.ok ("DROP "
          ++ (if sampleView.materialized then "MATERIALIZED " else "")
          ++ "VIEW IF EXISTS " ++ pgDialect.quote sampleView.name ++ " "
          ++ (if false then "CASCADE" else "")) :=
  c2_drop_view_text_amended pgDialect sampleView false false rfl

/-- C3: a view produced by `create_view` (for either value of
`cascade_on_drop`) or by `create_materialized_view` never has its cascade
attribute set, so compiling DropView for it fails with an attribute-access
error instead of reaching the CASCADE-rendering branch. -/
theorem c3_cascade_on_drop_never_stored (name name2 : String)
    (sel sel2 : Selectable) (m mm : MetaData) (cascade_on_drop replace : Bool)
    (idxs idxs2 : List Index) (aliases aliases2 : List (String × String))
    (opts opts2 : OptionBag) (v w : View) (m' mm' : MetaData)
    (dialect : Dialect) (e : Bool)
    (h1 : create_view name sel m cascade_on_drop replace idxs aliases opts
      = .ok (v, m'))
    (h2 : create_materialized_view name2 sel2 mm idxs2 aliases2 opts2
      = .ok (w, mm')) :
    v.cascade = none ∧ w.cascade = none
    ∧ compile_drop_materialized_view dialect { element := v, if_exists := e }
        = .error "AttributeError: View object has no attribute cascade"
    ∧ compile_drop_materialized_view dialect { element := w, if_exists := e }
        = .error "AttributeError: View object has no attribute cascade" := by
  rw [create_view_eq] at h1
  rw [create_materialized_view_eq] at h2
  obtain ⟨hv, -⟩ := Prod.mk.injEq _ _ _ _ |>.mp (Except.ok.injEq _ _ |>.mp h1)
  obtain ⟨hw, -⟩ := Prod.mk.injEq _ _ _ _ |>.mp (Except.ok.injEq _ _ |>.mp h2)
  subst hv; subst hw
  exact ⟨rfl, rfl, rfl, rfl⟩

/-- C3, witness: the theorem applied to concrete `create_view` and
`create_materialized_view` calls on `m0`. -/
theorem c3_cascade_on_drop_never_stored_witness :
    sampleCreatedView.cascade = none ∧ sampleMatView.cascade = none
    ∧ compile_drop_materialized_view pgDialect
        { element := sampleCreatedView, if_exists := false }
        = .error "AttributeError: View object has no attribute cascade"
    ∧ compile_drop_materialized_view pgDialect
        { element := sampleMatView, if_exists := false }
        = .error "AttributeError: View object has no attribute cascade" :=
  c3_cascade_on_drop_never_stored "v1" "mv1" sampleSelectable sampleSelectable
    m0 m0 true false [] [] [] [] [] [] sampleCreatedView sampleMatView
    sampleCreatedMeta sampleMatMeta pgDialect false rfl rfl

/-- C4: constructing a View with materialized and replace both true fails with
the ValueError "Cannot use CREATE OR REPLACE with materialized views"; every
other combination of the two flags constructs successfully. -/
theorem c4_materialized_replace_mutually_exclusive (name : String)
    (metadata : MetaData) (sel : Selectable) (materialized replace : Bool)
    (cols : List Column) (idxs : List Index) (opts : OptionBag) :
    exceptIsOk (View.init name metadata sel materialized replace cols idxs opts)
      = !(materialized && replace)
    ∧ View.init name metadata sel true true cols idxs opts
      = .error "Cannot use CREATE OR REPLACE with materialized views" := by
  constructor
  · cases materialized <;> cases replace <;> rfl
  · rfl

/-- C5: when no source column carries a primary-key flag,
`create_view_from_selectable` attaches exactly one synthesized primary-key
constraint covering exactly all source column names; when some source column
is flagged, no constraint is synthesized and exactly the flagged columns are
primary-key on the view. -/
theorem c5_primary_key_synthesis (name : String) (sel : Selectable)
    (idxs : List Index) (meta : Option MetaData)
    (aliases : List (String × String)) (mat rep : Bool) (opts : OptionBag)
    (view : View)
    (h : create_view_from_selectable name sel idxs meta aliases mat rep opts
      = .ok view) :
    view.constraints
      = (if sel.columns.any (·.primary_key) then []
         else [{ columns := sel.columns.map (·.name) }])
    ∧ (view.columns.filter (·.primary_key)).map (·.name)
      = (sel.columns.filter (·.primary_key)).map (·.name) := by
  obtain ⟨rfl, -⟩ := create_view_from_selectable_inv h
  exact ⟨rfl, derived_filter_pk_names aliases sel.columns⟩

/-- C5, witness: the theorem applied to `sampleSelectable`, whose single
column `id` is not primary-key, so the synthesized constraint covers it. -/
theorem c5_primary_key_synthesis_witness :
    sampleCreatedView.constraints
      = (if sampleSelectable.columns.any (·.primary_key) then []
         else [{ columns := sampleSelectable.columns.map (·.name) }])
    ∧ ((sampleCreatedView.columns.filter (·.primary_key)).map (·.name)
      = (sampleSelectable.columns.filter (·.primary_key)).map (·.name)) :=
  c5_primary_key_synthesis "v1" sampleSelectable [] none [] false false []
    sampleCreatedView rfl

/-- C6: the view's columns appear in the selectable's native order, keeping
each source column's name, type and primary-key flag, with the exposed key
being the alias-map value when present and the column name otherwise. -/
theorem c6_column_derivation (name : String) (sel : Selectable)
    (idxs : List Index) (meta : Option MetaData)
    (aliases : List (String × String)) (mat rep : Bool) (opts : OptionBag)
    (view : View)
    (h : create_view_from_selectable name sel idxs meta aliases mat rep opts
      = .ok view) :
    view.columns.map (·.name) = sel.columns.map (·.name)
    ∧ view.columns.map (·.type) = sel.columns.map (·.type)
    ∧ view.columns.map (·.primary_key) = sel.columns.map (·.primary_key)
    ∧ view.columns.map (·.key)
      = sel.columns.map (fun c => (aliases.lookup c.name).getD c.name) := by
  obtain ⟨rfl, -⟩ := create_view_from_selectable_inv h
  refine ⟨?_, ?_, ?_, ?_⟩ <;>
    simp [derivedView, get_columns, List.map_map, Function.comp]

/-- C6, witness: the theorem applied to `aliasSelectable` with alias map
`full_name -> fn`. -/
theorem c6_column_derivation_witness :
    aliasedView.columns.map (·.name) = aliasSelectable.columns.map (·.name)
    ∧ aliasedView.columns.map (·.type) = aliasSelectable.columns.map (·.type)
    ∧ aliasedView.columns.map (·.primary_key)
      = aliasSelectable.columns.map (·.primary_key)
    ∧ aliasedView.columns.map (·.key)
      = aliasSelectable.columns.map
          (fun c => ((([("full_name", "fn")] : List (String × String)).lookup
            c.name).getD c.name)) :=
  c6_column_derivation "v2" aliasSelectable [] none [("full_name", "fn")]
    false false [] aliasedView rfl

/-- C7: refresh_materialized_view appends to the session's trace exactly one
flush followed by exactly one execute of the refresh statement, and that
statement compiles to `REFRESH MATERIALIZED VIEW ` + (`CONCURRENTLY ` when
requested) + the dialect-quoted name. -/
theorem c7_refresh_flush_then_execute (session : List SessionOp)
    (name : String) (concurrently : Bool) (dialect : Dialect) :
    refresh_materialized_view session name concurrently
      = session ++ [SessionOp.flush,
          SessionOp.execute { name := name, concurrently := concurrently }]
    ∧ compile_refresh_materialized_view dialect
        { name := name, concurrently := concurrently }
      = "REFRESH MATERIALIZED VIEW "
          ++ (if concurrently then "CONCURRENTLY " else "")
          ++ dialect.quote name :=
  ⟨rfl, rfl⟩

/-- C8: after either factory runs, the create-all pass executes all base-table
CREATEs, then any previously registered hooks, then the view's CREATE, then
the CREATEs of the view's indexes; the drop-all pass executes the view's DROP
(after any previously registered drop hooks) before every base-table DROP, and
the container's table list is untouched. -/
theorem c8_hook_ordering (name name2 : String) (sel sel2 : Selectable)
    (m mm : MetaData) (cascade_on_drop replace : Bool)
    (idxs idxs2 : List Index) (aliases aliases2 : List (String × String))
    (opts opts2 : OptionBag) (v w : View) (m' mm' : MetaData)
    (h1 : create_view name sel m cascade_on_drop replace idxs aliases opts
      = .ok (v, m'))
    (h2 : create_materialized_view name2 sel2 mm idxs2 aliases2 opts2
      = .ok (w, mm')) :
    (m'.create_all = m.tables.map DDLEvent.createTable
        ++ ((m.after_create.map runHook).flatten
          ++ ([DDLEvent.createView v.name]
            ++ v.indexes.map fun i => DDLEvent.createIndex i.name))
      ∧ m'.drop_all = (m.before_drop.map runHook).flatten
          ++ ([DDLEvent.dropView v.name]
            ++ m.tables.reverse.map DDLEvent.dropTable)
      ∧ m'.tables = m.tables)
    ∧ (mm'.create_all = mm.tables.map DDLEvent.createTable
        ++ ((mm.after_create.map runHook).flatten
          ++ ([DDLEvent.createView w.name]
            ++ w.indexes.map fun i => DDLEvent.createIndex i.name))
      ∧ mm'.drop_all = (mm.before_drop.map runHook).flatten
          ++ ([DDLEvent.dropView w.name]
            ++ mm.tables.reverse.map DDLEvent.dropTable)
      ∧ mm'.tables = mm.tables) := by
  rw [create_view_eq] at h1
  rw [create_materialized_view_eq] at h2
  obtain ⟨hv, hm⟩ := Prod.mk.injEq _ _ _ _ |>.mp (Except.ok.injEq _ _ |>.mp h1)
  obtain ⟨hw, hmm⟩ := Prod.mk.injEq _ _ _ _ |>.mp (Except.ok.injEq _ _ |>.mp h2)
  subst hv; subst hw; subst hm; subst hmm
  refine ⟨⟨?_, ?_, rfl⟩, ⟨?_, ?_, rfl⟩⟩ <;>
    simp [MetaData.create_all, MetaData.drop_all, derivedView, runHook,
      List.map_append, List.flatten_append, List.append_assoc]

/-- C8, witness: the theorem applied to concrete factory calls on the
container `m0` holding the single base table `t`. -/
theorem c8_hook_ordering_witness :
    (sampleCreatedMeta.create_all = m0.tables.map DDLEvent.createTable
        ++ ((m0.after_create.map runHook).flatten
          ++ ([DDLEvent.createView sampleCreatedView.name]
            ++ sampleCreatedView.indexes.map fun i => DDLEvent.createIndex i.name))
      ∧ sampleCreatedMeta.drop_all = (m0.before_drop.map runHook).flatten
          ++ ([DDLEvent.dropView sampleCreatedView.name]
            ++ m0.tables.reverse.map DDLEvent.dropTable)
      ∧ sampleCreatedMeta.tables = m0.tables)
    ∧ (sampleMatMeta.create_all = m0.tables.map DDLEvent.createTable
        ++ ((m0.after_create.map runHook).flatten
          ++ ([DDLEvent.createView sampleMatView.name]
            ++ sampleMatView.indexes.map fun i => DDLEvent.createIndex i.name))
      ∧ sampleMatMeta.drop_all = (m0.before_drop.map runHook).flatten
          ++ ([DDLEvent.dropView sampleMatView.name]
            ++ m0.tables.reverse.map DDLEvent.dropTable)
      ∧ sampleMatMeta.tables = m0.tables) :=
  c8_hook_ordering "v1" "mv1" sampleSelectable sampleSelectable m0 m0
    true false [] [] [] [] [] [] sampleCreatedView sampleMatView
    sampleCreatedMeta sampleMatMeta rfl rfl

/-- C9: create_view and drop_view run the DDL visitor with the class-level
dispatch tag set to `view` and restore it to `table` afterwards, propagating
the visitor's outcome unchanged (so the restore also happens when the visitor
raises); the class-level default of the tag is `table`. -/
theorem c9_visit_name_transient (v : View)
    (visitor : String → Except String Unit) (s : VisitState) :
    (v.create_view_method visitor s).1.visit_name = "table"
    ∧ (v.create_view_method visitor s).2 = visitor "view"
    ∧ (v.drop_view_method visitor s).1.visit_name = "table"
    ∧ (v.drop_view_method visitor s).2 = visitor "view"
    ∧ View.default_visit_name = "table" :=
  ⟨rfl, rfl, rfl, rfl, rfl⟩

/-- C10: each factory passes `metadata=None` to `create_view_from_selectable`,
so the returned view is registered into a fresh private container holding only
itself; the caller's container keeps its table collection unchanged and is
touched only by appending the three lifecycle hooks. -/
theorem c10_view_not_in_caller_metadata (name name2 : String)
    (sel sel2 : Selectable) (m mm : MetaData) (cascade_on_drop replace : Bool)
    (idxs idxs2 : List Index) (aliases aliases2 : List (String × String))
    (opts opts2 : OptionBag) (v w : View) (m' mm' : MetaData)
    (h1 : create_view name sel m cascade_on_drop replace idxs aliases opts
      = .ok (v, m'))
    (h2 : create_materialized_view name2 sel2 mm idxs2 aliases2 opts2
      = .ok (w, mm')) :
    (m'.tables = m.tables
      ∧ m' = { m with
          after_create := m.after_create ++
            [Hook.createViewHook v.name,
             Hook.createIndexesHook (v.indexes.map (·.name))],
          before_drop := m.before_drop ++ [Hook.dropViewHook v.name] }
      ∧ v.metadata.tables = [v.name]
      ∧ (v.name ∉ m.tables → v.name ∉ m'.tables))
    ∧ (mm'.tables = mm.tables
      ∧ mm' = { mm with
          after_create := mm.after_create ++
            [Hook.createViewHook w.name,
             Hook.createIndexesHook (w.indexes.map (·.name))],
          before_drop := mm.before_drop ++ [Hook.dropViewHook w.name] }
      ∧ w.metadata.tables = [w.name]
      ∧ (w.name ∉ mm.tables → w.name ∉ mm'.tables)) := by
  rw [create_view_eq] at h1
  rw [create_materialized_view_eq] at h2
  obtain ⟨hv, hm⟩ := Prod.mk.injEq _ _ _ _ |>.mp (Except.ok.injEq _ _ |>.mp h1)
  obtain ⟨hw, hmm⟩ := Prod.mk.injEq _ _ _ _ |>.mp (Except.ok.injEq _ _ |>.mp h2)
  subst hv; subst hw; subst hm; subst hmm
  refine ⟨⟨rfl, ?_, rfl, fun hn => hn⟩, ⟨rfl, ?_, rfl, fun hn => hn⟩⟩ <;> rfl

/-- C10, witness: the theorem applied to concrete factory calls on `m0`: the
view lives in its own fresh container and `m0`'s table list is unchanged. -/
theorem c10_view_not_in_caller_metadata_witness :
    (sampleCreatedMeta.tables = m0.tables
      ∧ sampleCreatedMeta = { m0 with
          after_create := m0.after_create ++
            [Hook.createViewHook sampleCreatedView.name,
             Hook.createIndexesHook (sampleCreatedView.indexes.map (·.name))],
          before_drop := m0.before_drop ++
            [Hook.dropViewHook sampleCreatedView.name] }
      ∧ sampleCreatedView.metadata.tables = [sampleCreatedView.name]
      ∧ (sampleCreatedView.name ∉ m0.tables
          → sampleCreatedView.name ∉ sampleCreatedMeta.tables))
    ∧ (sampleMatMeta.tables = m0.tables
      ∧ sampleMatMeta = { m0 with
          after_create := m0.after_create ++
            [Hook.createViewHook sampleMatView.name,
             Hook.createIndexesHook (sampleMatView.indexes.map (·.name))],
          before_drop := m0.before_drop ++
            [Hook.dropViewHook sampleMatView.name] }
      ∧ sampleMatView.metadata.tables = [sampleMatView.name]
      ∧ (sampleMatView.name ∉ m0.tables
          → sampleMatView.name ∉ sampleMatMeta.tables)) :=
  c10_view_not_in_caller_metadata "v1" "mv1" sampleSelectable sampleSelectable
    m0 m0 true false [] [] [] [] [] [] sampleCreatedView sampleMatView
    sampleCreatedMeta sampleMatMeta rfl rfl

end SQLAlchemyUtilsView
